import Mathlib

/-!
Verification of the client-side archive control protocol engine
(`aeron-archive/src/main/cpp/client/AeronArchive.h`).

The header declares `AeronArchive::AsyncConnect` with fields
`m_connectCorrelationId = aeron::NULL_VALUE` and `m_step = 0`, a declared
(out-of-header) `poll()` method, an inline blocking `connect` convenience
built by looping `poll` with `idle()` between null results, and the inline
`startReplay` / `pollForResponse` operation bodies (the latter two are
explicit `TODO: finish` stubs in the source).

The handshake step machine driven by `poll()` is not defined in the header,
so it is modelled from the specification (section 4.2); the inline bodies
(`connect`, `startReplay`, `pollForResponse`) are embedded from the source
as written.
-/

namespace AeronModel

/-- `aeron::NULL_VALUE`, the sentinel for an unset 64-bit id. -/
def NULL_VALUE : Int := -1

/-- Result kind carried by a decoded control response
(spec section 3: "ok / error / recording-unknown / etc."). -/
inductive ControlResponseCode where
  | ok
  | error
  | recordingUnknown
  deriving DecidableEq, Repr

/-- A decoded control response: correlation id, result kind, and the
relevant payload field (assigned control-session id for a connect
response). -/
structure ControlResponse where
  correlationId : Int
  code : ControlResponseCode
  controlSessionId : Int
  deriving DecidableEq, Repr

/-- Outcome of a transport-level endpoint request
(spec section 6: endpoint creation may fail). -/
inductive TransportOutcome where
  | success
  | failure
  deriving DecidableEq, Repr

/-- Outcome of a non-blocking send
(spec section 6: `trySend -> Accepted | BackPressured | Closed`). -/
inductive SendResult where
  | accepted
  | backPressured
  | closed
  deriving DecidableEq, Repr

/-- What the transport and codec boundaries report during one `poll()`
invocation: endpoint-creation outcomes, connection-readiness flags, the
allocator's next correlation id, the result of attempting the connect-request
send, and at most one decoded control response drained from the receive
endpoint (the control-response poller completes one response at a time). -/
structure PollInput where
  addSubscription : TransportOutcome
  subscriptionConnected : Bool
  addPublication : TransportOutcome
  publicationConnected : Bool
  nextCorrelationId : Int
  sendResult : SendResult
  response : Option ControlResponse
  deriving Repr

/-- The mutable state of `AeronArchive::AsyncConnect`: the numeric step
field `m_step` and the recorded connect correlation id
`m_connectCorrelationId`. -/
structure AsyncConnectState where
  step : Nat
  connectCorrelationId : Int
  deriving DecidableEq, Repr

/-- The session produced by a successful handshake (the constructed
`AeronArchive`), carrying the archive-assigned control-session id. -/
structure ArchiveSession where
  controlSessionId : Int
  deriving DecidableEq, Repr

/-- Failures that abort the handshake: fatal transport errors, a connect
response with an error result kind, and polling a completed handshake. -/
inductive HandshakeError where
  | transportError
  | protocolError (code : ControlResponseCode)
  | illegalState
  deriving DecidableEq, Repr

/-- Step values of the handshake, in the spec's order (section 3). -/
def addingSubscription : Nat := 0

def awaitingSubscriptionConnected : Nat := 1

def addingPublication : Nat := 2

def awaitingPublicationConnected : Nat := 3

def sendingConnectRequest : Nat := 4

def awaitingConnectResponse : Nat := 5

def doneStep : Nat := 6

/-- State of `AsyncConnect` immediately after construction, from the
default member initializers in the header:
`m_connectCorrelationId = aeron::NULL_VALUE` and `m_step = 0`. -/
def initState : AsyncConnectState :=
  { step := 0, connectCorrelationId := NULL_VALUE }

/-- Modelled from the spec: the body of `AeronArchive::AsyncConnect::poll`
is not in the header (only its declaration, line 44), so the per-step
algorithm is taken from spec section 4.2. One call advances at most one
step: request the receive endpoint (fatal on transport failure), await its
connection, request the send endpoint, await its connection, send the
connect request recording a fresh correlation id (remaining in place while
back-pressured), then await a connect response: a matching success yields
the session, a matching error kind fails the handshake, a non-matching
frame is discarded. Polling the terminal step is not valid. -/
def poll (s : AsyncConnectState) (i : PollInput) :
    Except HandshakeError (AsyncConnectState × Option ArchiveSession) :=
  match s.step with
  | 0 =>
    match i.addSubscription with
    | .success => .ok ({ s with step := 1 }, none)
    | .failure => .error .transportError
  | 1 =>
    if i.subscriptionConnected then .ok ({ s with step := 2 }, none)
    else .ok (s, none)
  | 2 =>
    match i.addPublication with
    | .success => .ok ({ s with step := 3 }, none)
    | .failure => .error .transportError
  | 3 =>
    if i.publicationConnected then .ok ({ s with step := 4 }, none)
    else .ok (s, none)
  | 4 =>
    match i.sendResult with
    | .accepted =>
      .ok ({ step := 5, connectCorrelationId := i.nextCorrelationId }, none)
    | .backPressured => .ok (s, none)
    | .closed => .error .transportError
  | 5 =>
    match i.response with
    | none => .ok (s, none)
    | some r =>
      if r.correlationId = s.connectCorrelationId then
        match r.code with
        | .ok =>
          .ok ({ s with step := 6 }, some { controlSessionId := r.controlSessionId })
        | c => .error (.protocolError c)
      else .ok (s, none)
  | _ => .error .illegalState

/-- Whether one poll invocation observes a connect response that matches
the handshake's recorded connect correlation id with a success result
kind while the handshake is awaiting the connect response. -/
def successMatch (s : AsyncConnectState) (i : PollInput) : Bool :=
  s.step == awaitingConnectResponse &&
    match i.response with
    | some r => r.correlationId == s.connectCorrelationId && r.code == .ok
    | none => false

/-- Embedding of the inline blocking convenience `AeronArchive::connect`
(header lines 66-80): after `asyncConnect`, the loop body is
`archive = poll(); while (!archive) { idle.idle(); archive = poll(); }`.
`polls j` is the value returned by the `j`-th call to `asyncConnect->poll()`;
`j` counts the polls already made, which equals the number of `idle()`
invocations performed so far, since exactly one `idle()` precedes every
re-poll. `fuel` bounds the number of poll calls the model may make; the
source loop is unbounded. On success the result carries the session
together with the index of the returning poll (equally, the number of
`idle()` calls made). -/
def connectRun {α : Type} (polls : Nat → Option α) : Nat → Nat → Option (α × Nat)
  | _, 0 => none
  | j, fuel + 1 =>
    match polls j with
    | some a => some (a, j)
    | none => connectRun polls (j + 1) fuel

/-- `AeronArchive::connect` run from the first poll. -/
def connect {α : Type} (polls : Nat → Option α) (fuel : Nat) : Option (α × Nat) :=
  connectRun polls 0 fuel

/-- The spec's words for the blocking convenience: the value returned is
the first non-null session that `poll()` yields, after `k` null results
(hence `k` interleaved `idle()` calls). -/
def isFirstSession {α : Type} (polls : Nat → Option α) (a : α) (k : Nat) : Prop :=
  polls k = some a ∧ ∀ j < k, polls j = none

/-- A control request as observed on the transport (spec section 4.3). -/
inductive ControlRequest where
  | replay (correlationId recordingId position length : Int)
      (replayChannel : String) (replayStreamId : Int)
  deriving DecidableEq, Repr

/-- The `Aeron` client handle as used by `startReplay`: only its
monotonically allocating `nextCorrelationId()` counter. -/
structure AeronClient where
  correlationCounter : Int
  deriving DecidableEq, Repr

/-- `Aeron::nextCorrelationId()`: returns the next id and the advanced
client. -/
def nextCorrelationId (a : AeronClient) : Int × AeronClient :=
  (a.correlationCounter, { correlationCounter := a.correlationCounter + 1 })

/-- State an `AeronArchive` session threads through its operations: the
`m_aeron` client handle, plus the list of requests the transport has
observed being sent (so that the absence of sends is visible in the
model). -/
structure ArchiveState where
  aeron : AeronClient
  sentRequests : List ControlRequest
  deriving DecidableEq, Repr

/-- Embedding of `AeronArchive::pollForResponse` (header lines 107-115)
exactly as written: the body constructs an idle strategy, is marked
`TODO: finish`, and returns `0`; the `correlationId` argument is unused
and no state is read or written. -/
def pollForResponse (st : ArchiveState) (correlationId : Int) : ArchiveState × Int :=
  (st, 0)

/-- Embedding of `AeronArchive::startReplay` (header lines 88-101) exactly
as written: allocate `correlationId = m_aeron->nextCorrelationId()`, then
(the request send is a `TODO: finish` gap — nothing is sent) return
`pollForResponse(correlationId)`. -/
def startReplay (st : ArchiveState) (recordingId position length : Int)
    (replayChannel : String) (replayStreamId : Int) : ArchiveState × Int :=
  let alloc := nextCorrelationId st.aeron
  let correlationId := alloc.1
  let st' : ArchiveState := { st with aeron := alloc.2 }
  pollForResponse st' correlationId

/-- C1: every successful `poll()` call on an `AsyncConnect` handshake
leaves the step field unchanged or advances it (never decreases it), and
the call returns a non-null session if and only if the step has reached
the terminal Done step via a connect response matching the recorded
connect correlation id with a success result kind. -/
theorem poll_step_monotone_session_iff_done
    (s : AsyncConnectState) (i : PollInput) (s' : AsyncConnectState)
    (r : Option ArchiveSession)
    (h : poll s i = .ok (s', r)) :
    s.step ≤ s'.step ∧
      (r.isSome ↔ (s'.step = doneStep ∧ successMatch s i = true)) := by
  unfold poll at h
  repeat' split at h
  all_goals try exact Except.noConfusion h
  all_goals simp only [Except.ok.injEq, Prod.mk.injEq] at h
  all_goals obtain ⟨rfl, rfl⟩ := h
  all_goals simp_all [successMatch, doneStep, awaitingConnectResponse]

/-- Witness for C1 at a concrete state and input: the first poll from the
initial state advances the step from 0 to 1 and returns no session. -/
theorem poll_step_monotone_session_iff_done_witness :
    initState.step ≤ (AsyncConnectState.mk 1 NULL_VALUE).step ∧
      ((none : Option ArchiveSession).isSome ↔
        ((AsyncConnectState.mk 1 NULL_VALUE).step = doneStep ∧
          successMatch initState
            { addSubscription := .success, subscriptionConnected := false,
              addPublication := .success, publicationConnected := false,
              nextCorrelationId := 100, sendResult := .accepted,
              response := none } = true)) :=
  poll_step_monotone_session_iff_done initState
    { addSubscription := .success, subscriptionConnected := false,
      addPublication := .success, publicationConnected := false,
      nextCorrelationId := 100, sendResult := .accepted, response := none }
    (AsyncConnectState.mk 1 NULL_VALUE) none rfl

/-- C2: `poll` returns a non-null session only when this very call, in the
AwaitingConnectResponse step, observes a decoded connect response whose
correlation id equals the handshake's recorded `m_connectCorrelationId`
and whose result kind is success; in every state where no such matching
success response is observed, the session returned is null. -/
theorem poll_session_requires_matching_success
    (s : AsyncConnectState) (i : PollInput) (s' : AsyncConnectState)
    (sess : ArchiveSession)
    (h : poll s i = .ok (s', some sess)) :
    successMatch s i = true := by
  unfold poll at h
  repeat' split at h
  all_goals simp_all [successMatch, awaitingConnectResponse]

/-- Witness for C2: a poll in the AwaitingConnectResponse step that sees a
matching success response yields a session, and `successMatch` holds
there. -/
theorem poll_session_requires_matching_success_witness :
    successMatch (AsyncConnectState.mk 5 42)
      { addSubscription := .success, subscriptionConnected := true,
        addPublication := .success, publicationConnected := true,
        nextCorrelationId := 43, sendResult := .accepted,
        response := some (ControlResponse.mk 42 .ok 9) } = true :=
  poll_session_requires_matching_success (AsyncConnectState.mk 5 42)
    { addSubscription := .success, subscriptionConnected := true,
      addPublication := .success, publicationConnected := true,
      nextCorrelationId := 43, sendResult := .accepted,
      response := some (ControlResponse.mk 42 .ok 9) }
    (AsyncConnectState.mk 6 42) (ArchiveSession.mk 9) rfl

/-- C7: in the AwaitingConnectResponse step, a decoded connect response
whose correlation id differs from the recorded connect correlation id is
ignored: `poll` leaves the handshake state unchanged and returns null. -/
theorem poll_discards_non_matching_response
    (s : AsyncConnectState) (i : PollInput) (r : ControlResponse)
    (hstep : s.step = awaitingConnectResponse)
    (hresp : i.response = some r)
    (hne : r.correlationId ≠ s.connectCorrelationId) :
    poll s i = .ok (s, none) := by
  unfold poll
  rw [hstep]
  simp [awaitingConnectResponse, hresp, hne]

/-- Witness for C7: a stray response with correlation id 99 injected while
the handshake (recorded id 42) awaits its connect response leaves the
state unchanged and yields null. -/
theorem poll_discards_non_matching_response_witness :
    poll (AsyncConnectState.mk 5 42)
      { addSubscription := .success, subscriptionConnected := true,
        addPublication := .success, publicationConnected := true,
        nextCorrelationId := 43, sendResult := .accepted,
        response := some (ControlResponse.mk 99 .ok 9) } =
      .ok (AsyncConnectState.mk 5 42, none) :=
  poll_discards_non_matching_response (AsyncConnectState.mk 5 42)
    { addSubscription := .success, subscriptionConnected := true,
      addPublication := .success, publicationConnected := true,
      nextCorrelationId := 43, sendResult := .accepted,
      response := some (ControlResponse.mk 99 .ok 9) }
    (ControlResponse.mk 99 .ok 9) rfl rfl (by decide)

/-- C10: immediately after construction of an `AsyncConnect` the step
field equals 0 and the connect correlation id equals `aeron::NULL_VALUE`
(the header's default member initializers), and no poll taken before the
SendingConnectRequest step executes changes the connect correlation id. -/
theorem asyncConnect_initial_state :
    initState.step = 0 ∧ initState.connectCorrelationId = NULL_VALUE ∧
      ∀ (s : AsyncConnectState) (i : PollInput) (s' : AsyncConnectState)
        (r : Option ArchiveSession),
        poll s i = .ok (s', r) → s.step < sendingConnectRequest →
          s'.connectCorrelationId = s.connectCorrelationId := by
  refine ⟨rfl, rfl, ?_⟩
  intro s i s' r h hlt
  unfold poll at h
  repeat' split at h
  all_goals try exact Except.noConfusion h
  all_goals simp only [Except.ok.injEq, Prod.mk.injEq] at h
  all_goals obtain ⟨rfl, rfl⟩ := h
  all_goals simp_all [sendingConnectRequest]

/-- Witness for C10: the first poll from the freshly constructed state
(step 0, correlation id `NULL_VALUE`) leaves the correlation id at
`NULL_VALUE`. -/
theorem asyncConnect_initial_state_witness :
    (AsyncConnectState.mk 1 NULL_VALUE).connectCorrelationId =
      initState.connectCorrelationId :=
  asyncConnect_initial_state.2.2 initState
    { addSubscription := .success, subscriptionConnected := false,
      addPublication := .success, publicationConnected := false,
      nextCorrelationId := 100, sendResult := .accepted, response := none }
    (AsyncConnectState.mk 1 NULL_VALUE) none rfl (by decide)

/-- The connect loop started at poll index `j` returns `some (a, k)`
exactly when poll `k` is the first poll at or after `j` yielding a
session, and `k` is within the fuel bound. -/
theorem connectRun_eq_some_iff {α : Type} (polls : Nat → Option α) :
    ∀ (fuel j : Nat) (a : α) (k : Nat),
      connectRun polls j fuel = some (a, k) ↔
        (j ≤ k ∧ k < j + fuel ∧ polls k = some a ∧
          ∀ m, j ≤ m → m < k → polls m = none) := by
  intro fuel
  induction fuel with
  | zero =>
    intro j a k
    constructor
    · intro h
      exact Option.noConfusion h
    · rintro ⟨h1, h2, -, -⟩
      exact absurd h2 (by omega)
  | succ n ih =>
    intro j a k
    simp only [connectRun]
    cases hp : polls j with
    | some b =>
      simp only [Option.some.injEq, Prod.mk.injEq]
      constructor
      · rintro ⟨rfl, rfl⟩
        exact ⟨le_refl j, by omega, hp, fun m hm1 hm2 => absurd hm1 (by omega)⟩
      · rintro ⟨h1, h2, h3, h4⟩
        rcases Nat.eq_or_lt_of_le h1 with rfl | hlt
        · rw [hp] at h3
          exact ⟨(Option.some.injEq b a).mp h3, rfl⟩
        · exact absurd (h4 j (le_refl j) hlt) (by simp [hp])
    | none =>
      rw [ih (j + 1) a k]
      constructor
      · rintro ⟨h1, h2, h3, h4⟩
        refine ⟨by omega, by omega, h3, fun m hm1 hm2 => ?_⟩
        rcases Nat.eq_or_lt_of_le hm1 with rfl | hlt
        · exact hp
        · exact h4 m hlt hm2
      · rintro ⟨h1, h2, h3, h4⟩
        rcases Nat.eq_or_lt_of_le h1 with rfl | hlt
        · rw [hp] at h3
          exact Option.noConfusion h3
        · exact ⟨hlt, by omega, h3, fun m hm1 hm2 => h4 m (by omega) hm2⟩

/-- The connect loop started at poll index `j` returns nothing exactly
when every poll within the fuel bound yields null. -/
theorem connectRun_eq_none_iff {α : Type} (polls : Nat → Option α) :
    ∀ (fuel j : Nat),
      connectRun polls j fuel = none ↔
        ∀ m, j ≤ m → m < j + fuel → polls m = none := by
  intro fuel
  induction fuel with
  | zero =>
    intro j
    simp only [connectRun]
    exact ⟨fun _ m hm1 hm2 => absurd hm2 (by omega), fun _ => trivial⟩
  | succ n ih =>
    intro j
    simp only [connectRun]
    cases hp : polls j with
    | some b =>
      constructor
      · intro h
        exact Option.noConfusion h
      · intro h
        exact absurd (h j (le_refl j) (by omega)) (by simp [hp])
    | none =>
      rw [ih (j + 1)]
      constructor
      · intro h m hm1 hm2
        rcases Nat.eq_or_lt_of_le hm1 with rfl | hlt
        · exact hp
        · exact h m hlt (by omega)
      · intro h m hm1 hm2
        exact h m (by omega) (by omega)

/-- C3: the blocking `connect` convenience is equivalent to iterating the
non-blocking handshake: it returns `some (a, k)` exactly when poll `k` is
the first poll yielding a non-null session `a` (so `k` idle invocations
occur, one between consecutive null results), and it yields nothing
within its fuel bound exactly when every poll so far returned null. -/
theorem connect_returns_first_session {α : Type} (polls : Nat → Option α)
    (fuel : Nat) (a : α) (k : Nat) :
    (connect polls fuel = some (a, k) ↔ (k < fuel ∧ isFirstSession polls a k)) ∧
      (connect polls fuel = none ↔ ∀ j < fuel, polls j = none) := by
  constructor
  · rw [connect, connectRun_eq_some_iff, isFirstSession]
    constructor
    · rintro ⟨-, h2, h3, h4⟩
      exact ⟨by omega, h3, fun j hj => h4 j (Nat.zero_le j) hj⟩
    · rintro ⟨h1, h2, h3⟩
      exact ⟨Nat.zero_le k, by omega, h2, fun m _ hm => h3 m hm⟩
  · rw [connect, connectRun_eq_none_iff]
    exact ⟨fun h j hj => h j (Nat.zero_le j) (by omega),
      fun h m _ hm => h m (by omega)⟩

/-- C9: the blocking `connect` enforces no deadline of its own: if every
poll returns null it never returns (no fuel bound suffices), it terminates
as soon as some poll returns a non-null session, and whenever it returns,
the returned session is the non-null value some poll yielded. -/
theorem connect_no_deadline_termination {α : Type} (polls : Nat → Option α) :
    ((∀ n, polls n = none) → ∀ fuel, connect polls fuel = none) ∧
      (∀ (n : Nat) (a : α), polls n = some a → (connect polls (n + 1)).isSome) ∧
      (∀ (fuel : Nat) (a : α) (k : Nat),
        connect polls fuel = some (a, k) → polls k = some a) := by
  refine ⟨?_, ?_, ?_⟩
  · intro hall fuel
    rw [connect, connectRun_eq_none_iff]
    exact fun m _ _ => hall m
  · intro n a hn
    cases hc : connect polls (n + 1) with
    | some p => simp
    | none =>
      rw [connect, connectRun_eq_none_iff] at hc
      exact absurd (hc n (Nat.zero_le n) (by omega)) (by simp [hn])
  · intro fuel a k h
    rw [connect, connectRun_eq_some_iff] at h
    exact h.2.2.1

/-- Witness for C9 at concrete poll streams: an all-null stream yields no
session for fuel 5, a stream whose first poll yields a session terminates
at once, and the value returned is the polled one. -/
theorem connect_no_deadline_termination_witness :
    connect (fun _ => (none : Option ArchiveSession)) 5 = none ∧
      (connect (fun _ => some (ArchiveSession.mk 7)) 1).isSome ∧
      (fun _ : Nat => some (ArchiveSession.mk 7)) 0 = some (ArchiveSession.mk 7) :=
  ⟨(connect_no_deadline_termination (fun _ => none)).1 (fun _ => rfl) 5,
    (connect_no_deadline_termination (fun _ => some (ArchiveSession.mk 7))).2.1
      0 (ArchiveSession.mk 7) rfl,
    (connect_no_deadline_termination (fun _ => some (ArchiveSession.mk 7))).2.2
      1 (ArchiveSession.mk 7) 0 rfl⟩

/-- C8: for every input, `startReplay` performs no send on any endpoint
and returns 0: it only advances the correlation-id allocator by one and
calls `pollForResponse`, which ignores its `correlationId` argument,
touches no state, and unconditionally returns 0. -/
theorem startReplay_no_send_returns_zero :
    ∀ (st : ArchiveState) (recordingId position length : Int)
      (replayChannel : String) (replayStreamId : Int),
      (startReplay st recordingId position length replayChannel replayStreamId).2
          = 0 ∧
        (startReplay st recordingId position length replayChannel
              replayStreamId).1.sentRequests = st.sentRequests ∧
        (startReplay st recordingId position length replayChannel
              replayStreamId).1.aeron.correlationCounter =
          st.aeron.correlationCounter + 1 ∧
        ∀ (st' : ArchiveState) (c c' : Int),
          pollForResponse st' c = (st', 0) ∧
            pollForResponse st' c = pollForResponse st' c' :=
  fun _ _ _ _ _ _ => ⟨rfl, rfl, rfl, fun _ _ _ => ⟨rfl, rfl⟩⟩

/-- C4 (code divergence): at the failing input
`startReplay(42, 0, 1000, "aeron:udp?endpoint=localhost:9000", 20)` the
embedded source body sends no request at all (the transport observes an
unchanged, empty request list) and immediately returns the stub result 0,
so no send precedes the response polling — the send is absent entirely
(`TODO: finish` in the source). -/
theorem startReplay_send_gap_at_failing_input :
    (startReplay (ArchiveState.mk (AeronClient.mk 100) []) 42 0 1000
          "aeron:udp?endpoint=localhost:9000" 20).1.sentRequests = [] ∧
      (startReplay (ArchiveState.mk (AeronClient.mk 100) []) 42 0 1000
          "aeron:udp?endpoint=localhost:9000" 20).2 = 0 :=
  ⟨rfl, rfl⟩

/-- C5 (code divergence): `pollForResponse` has no deadline check and no
timeout outcome: at correlation id 100 with no response ever arriving, it
returns the bare integer 0 with the state untouched — there is no
`TimeoutError`-versus-`ProtocolError` distinction in the stubbed body. -/
theorem pollForResponse_no_timeout_outcome :
    pollForResponse (ArchiveState.mk (AeronClient.mk 100) []) 100 =
      (ArchiveState.mk (AeronClient.mk 100) [], 0) :=
  rfl

/-- C6 (code divergence): for the trySend disposition K = 0 (the transport
would accept the very first attempt), `startReplay` still places zero
requests on the transport rather than exactly one: the embedded source
body never invokes `trySend` at all. -/
theorem startReplay_zero_requests_observed :
    ((startReplay (ArchiveState.mk (AeronClient.mk 7) []) 42 0 1000
          "aeron:udp?endpoint=localhost:9000" 20).1.sentRequests.length = 0) :=
  rfl

end AeronModel
